import Mathlib

/- Verification of the fact-driven recipe synthesis engine implemented in
   scripts/recipe-robot.py.  Python dictionaries holding recipe keys are
   modelled as Lean structures; the Input dictionary is modelled as a
   function from key strings to optional values; Python None is modelled
   with Option.  External processes (autopkg search, curl, codesign) are
   modelled as collaborator functions passed in explicitly. -/

namespace RecipeRobot

/-- Plist-style values appearing in recipe documents: the source builds
nested dicts, lists, strings and booleans for the Process and Input keys. -/
inductive PValue where
  | str : String → PValue
  | bool : Bool → PValue
  | list : List PValue → PValue
  | dict : List (String × PValue) → PValue

/-- Image download formats the tool knows about (line 73 of the source). -/
def supported_image_formats : List String := ["dmg", "iso"]

/-- Archive download formats the tool knows about (line 74 of the source). -/
def supported_archive_formats : List String := ["zip", "tar.gz", "gzip", "tar.bz2"]

/-- Installer download formats the tool knows about (line 75 of the source). -/
def supported_install_formats : List String := ["pkg", "mpkg"]

/-- Concatenation of all supported formats, in the order of line 76 of the
source: image formats, then archive formats, then installer formats. -/
def all_supported_formats : List String :=
  supported_image_formats ++ supported_archive_formats ++ supported_install_formats

/-- The Comment value written into every recipe by init_recipes
(lines 485 to 487), with version 0.0.2 interpolated. -/
def generator_comment : String :=
  "Generated by Recipe Robot v0.0.2 (https://github.com/homebysix/recipe-robot)"

/-- The keys dictionary attached to each recipe record.  Description and
ParentRecipe are optional because init_recipes does not create them; the
other five keys are always present (lines 480 to 487). -/
structure RecipeKeys where
  identifier : String
  minimumVersion : String
  input : String → Option PValue
  process : List PValue
  comment : String
  description : Option String
  parentRecipe : Option String

/-- One per-kind recipe record as built by init_recipes (lines 434 to 489):
name, human description, the four status booleans, the icon path and the
accumulating keys dictionary. -/
structure RecipeState where
  name : String
  description : String
  preferred : Bool
  existing : Bool
  buildable : Bool
  selected : Bool
  icon_path : String
  keys : RecipeKeys

/-- Python dictionary assignment d[k] = v for the Input mapping. -/
def dictSet (m : String → Option PValue) (k : String) (v : PValue) :
    String → Option PValue :=
  fun q => if q = k then some v else m q

/-- Default keys given to every recipe type by init_recipes
(lines 480 to 487).  Input starts empty and Process starts as an empty
list; Description and ParentRecipe keys do not exist yet. -/
def init_keys : RecipeKeys :=
  { identifier := ""
    minimumVersion := "0.5.0"
    input := fun _ => none
    process := []
    comment := generator_comment
    description := none
    parentRecipe := none }

/-- The static name and description pairs of the eight known recipe types,
in the order they appear in init_recipes (lines 434 to 470). -/
def recipe_type_catalog : List (String × String) := [
  ("download", "Downloads an app in whatever format the developer provides."),
  ("munki", "Imports into your Munki repository."),
  ("pkg", "Creates a standard pkg installer file."),
  ("install", "Installs the app on the computer running AutoPkg."),
  ("jss", "Imports into your Casper JSS and creates necessary groups, policies, etc."),
  ("absolute", "Imports into your Absolute Manage server."),
  ("sccm", "Creates a cmmac package for deploying via Microsoft SCCM."),
  ("ds", "Imports into your DeployStudio Packages folder.")]

/-- Default values applied to one recipe record by the loop in
init_recipes (lines 472 to 487): preferred and selected start true,
existing and buildable start false. -/
def mkRecipe (nd : String × String) : RecipeState :=
  { name := nd.1
    description := nd.2
    preferred := true
    existing := false
    buildable := false
    selected := true
    icon_path := ""
    keys := init_keys }

/-- The master recipe list produced by init_recipes (lines 427 to 489). -/
def init_recipes : List RecipeState := recipe_type_catalog.map mkRecipe

/-- The per-recipe body of create_buildable_recipe_list
(lines 762 to 768): when include existing is off, mark buildable when
preferred and not existing; when it is on, mark buildable when preferred. -/
def create_buildable_recipe_list_step (include_existing : Bool)
    (recipe : RecipeState) : RecipeState :=
  if include_existing = false then
    (if recipe.preferred = true ∧ recipe.existing = false then
      { recipe with buildable := true }
    else recipe)
  else
    (if recipe.preferred = true then { recipe with buildable := true } else recipe)

/-- The full pass of create_buildable_recipe_list (lines 752 to 768) over
the recipe list. -/
def create_buildable_recipe_list (include_existing : Bool)
    (recipes : List RecipeState) : List RecipeState :=
  recipes.map (create_buildable_recipe_list_step include_existing)

/-- C1: for every recipe kind, after the existing and buildable resolution
pass starting from the initialized state where buildable is false,
buildable is true exactly when (include existing is off and the kind is
preferred and not existing) or (include existing is on and the kind is
preferred). -/
theorem c1_buildable_iff (include_existing : Bool) (recipes : List RecipeState)
    (hinit : ∀ r ∈ recipes, r.buildable = false) :
    ∀ r ∈ create_buildable_recipe_list include_existing recipes,
      (r.buildable = true ↔
        ((include_existing = false ∧ r.preferred = true ∧ r.existing = false) ∨
         (include_existing = true ∧ r.preferred = true))) := by
  intro r hr
  rcases List.mem_map.mp hr with ⟨r0, hr0, rfl⟩
  have h0 := hinit r0 hr0
  unfold create_buildable_recipe_list_step
  cases include_existing <;>
    by_cases hp : r0.preferred = true <;>
      by_cases he : r0.existing = false <;>
        simp_all

/-- Witness for C1: the initialized recipe list satisfies the hypothesis,
and the conclusion holds for the pass with include existing off. -/
theorem c1_buildable_iff_witness :
    (∀ r ∈ init_recipes, r.buildable = false) ∧
    (∀ r ∈ create_buildable_recipe_list false init_recipes,
      (r.buildable = true ↔
        ((false = false ∧ r.preferred = true ∧ r.existing = false) ∨
         (false = true ∧ r.preferred = true)))) :=
  ⟨by decide, c1_buildable_iff false init_recipes (by decide)⟩

/-- The user-visible effect robo_print has for each output type
(lines 329 to 351): an error message exits the process with status 1, a
warning goes to standard error and the run continues, debug and verbose
output depend on the mode flags, and anything else is logged. -/
inductive PrintEffect where
  | exitError
  | stderrWarning
  | stdoutDebug
  | stdoutVerbose
  | stdoutLog
  | silent
  deriving DecidableEq

/-- Model of robo_print (lines 329 to 351), keeping only the control
effect of each output type. -/
def robo_print_effect (output_type : String) (debug_mode verbose_mode : Bool) :
    PrintEffect :=
  if output_type = "error" then PrintEffect.exitError
  else if output_type = "warning" then PrintEffect.stderrWarning
  else if output_type = "debug" then
    (if debug_mode = true then PrintEffect.stdoutDebug else PrintEffect.silent)
  else if output_type = "verbose" then
    (if verbose_mode = true ∨ debug_mode = true then PrintEffect.stdoutVerbose
     else PrintEffect.silent)
  else PrintEffect.stdoutLog

/-- Reading a key of the Info.plist mapping, where a missing key raises
KeyError in the source (caught by the surrounding try blocks). -/
def lookupInfo (info : List (String × String)) (k : String) : Option String :=
  (info.find? (fun p => p.1 == k)).map (fun p => p.2)

/-- The acquisition-source phase of handle_app_input (lines 860 to 890):
try SUFeedURL, then SUOriginalFeedURL; each found feed is passed to
get_sparkle_download_format, modelled by the collaborator fmtOf.  If no
feed was found the source calls robo_print with output type error, which
exits the process, modelled here as Except.error carrying the message.
On success the pair of the feed URL and the download format is returned;
the format is an Option because get_sparkle_download_format can return
None, while the initial value of the variable is the empty string. -/
def sparkle_phase (info : List (String × String))
    (fmtOf : String → Option String) :
    Except String (String × Option String) :=
  let first : String × Option String :=
    match lookupInfo info "SUFeedURL" with
    | some v => (v, fmtOf v)
    | none => ("", some "")
  let second : String × Option String :=
    if first.1 = "" then
      match lookupInfo info "SUOriginalFeedURL" with
      | some v => (v, fmtOf v)
      | none => first
    else first
  if second.1 = "" then
    Except.error "Sorry, this app doesn\x27t have a Sparkle feed."
  else
    Except.ok second

/-- Concrete Info.plist mapping for an app named Foo with no update feed
keys at all. -/
def fooInfo : List (String × String) := [("CFBundleName", "Foo")]

/-- Concrete sparkle format collaborator that never finds a format. -/
def noFmt : String → Option String := fun _ => none

/-- Counterexample to C2: on an application bundle whose metadata has no
update feed, the acquisition phase of handle_app_input does not continue
with a reminder; it reaches robo_print with output type error, which
exits the process.  The run aborts. -/
theorem c2_counterexample :
    sparkle_phase fooInfo noFmt =
      Except.error "Sorry, this app doesn\x27t have a Sparkle feed." := by
  rfl

/-- C2 amended: for every application-bundle input whose metadata has
neither SUFeedURL nor SUOriginalFeedURL, handle_app_input reports the
missing Sparkle feed through robo_print with output type error, and an
error in robo_print exits the process with status 1, so the run aborts
before any download document is synthesized. -/
theorem c2_no_feed_aborts (info : List (String × String))
    (fmtOf : String → Option String) (dm vm : Bool)
    (h1 : lookupInfo info "SUFeedURL" = none)
    (h2 : lookupInfo info "SUOriginalFeedURL" = none) :
    sparkle_phase info fmtOf =
      Except.error "Sorry, this app doesn\x27t have a Sparkle feed." ∧
    robo_print_effect "error" dm vm = PrintEffect.exitError := by
  constructor
  · unfold sparkle_phase
    rw [h1, h2]
    simp
  · rfl

/-- Witness for C2: the hypotheses hold for the concrete Foo metadata and
the amended conclusion follows. -/
theorem c2_no_feed_aborts_witness :
    sparkle_phase fooInfo noFmt =
      Except.error "Sorry, this app doesn\x27t have a Sparkle feed." ∧
    robo_print_effect "error" true false = PrintEffect.exitError :=
  c2_no_feed_aborts fooInfo noFmt true false (by decide) (by decide)

/-- Python str.split with no argument splits on these whitespace
characters; joining the pieces with the empty string removes them. -/
def pyIsSpace (c : Char) : Bool :=
  c = ' ' ∨ c = '\t' ∨ c = '\n' ∨ c = '\x0d' ∨ c = '\x0b' ∨ c = '\x0c'

/-- The app name variant with internal whitespace removed
(line 726 of the source). -/
def app_name_no_space (s : String) : String :=
  String.mk (s.toList.filter (fun c => !pyIsSpace c))

/-- Python regular expression word characters in ASCII mode. -/
def pyIsWord (c : Char) : Bool := c.isAlphanum ∨ c = '_'

/-- The app name variant with all non-word characters removed
(line 730 of the source). -/
def app_name_no_symbol (s : String) : String :=
  String.mk (s.toList.filter pyIsWord)

/-- The search variants built by create_existing_recipe_list
(lines 723 to 732): the exact name always, the whitespace-free variant
when it differs, and the symbol-free variant when it differs from both. -/
def recipe_searches (app_name : String) : List String :=
  app_name ::
    ((if app_name_no_space app_name ≠ app_name
        then [app_name_no_space app_name] else []) ++
     (if app_name_no_symbol app_name ≠ app_name ∧
         app_name_no_symbol app_name ≠ app_name_no_space app_name
        then [app_name_no_symbol app_name] else []))

/-- Literal match of a pattern at the head of a character list. -/
def litAt : List Char → List Char → Bool
  | [], _ => true
  | _ :: _, [] => false
  | p :: ps, c :: cs => p == c && litAt ps cs

/-- Substring containment on character lists, used for the membership
test recipe_name in line at line 744 of the source. -/
def hasSub (pat : List Char) : List Char → Bool
  | [] => litAt pat []
  | c :: cs => litAt pat (c :: cs) || hasSub pat cs

/-- Marking pass over the recipe list for one search variant
(lines 740 to 747): a recipe whose name pattern appears in some line of
the search output has its existing flag set to true. -/
def mark_existing (this_search : String) (out : String)
    (recipes : List RecipeState) : List RecipeState :=
  recipes.map (fun recipe =>
    let recipe_name := this_search ++ "." ++ recipe.name ++ ".recipe"
    if (out.split (fun c => c = '\n')).any
        (fun line => hasSub recipe_name.toList line.toList) then
      { recipe with existing := true }
    else recipe)

/-- The loop over search variants in create_existing_recipe_list
(lines 734 to 749).  The collaborator returns the triple of exit code,
standard output and standard error of the autopkg search command.  A
non-zero exit code reaches robo_print with output type error, which
exits the process, modelled as Except.error carrying the stderr text. -/
def existing_search_loop (search : String → Int × String × String) :
    List String → List RecipeState → Except String (List RecipeState)
  | [], recipes => Except.ok recipes
  | s :: rest, recipes =>
    if (search s).1 = 0 then
      existing_search_loop search rest (mark_existing s (search s).2.1 recipes)
    else
      Except.error (search s).2.2

/-- Model of create_existing_recipe_list (lines 713 to 749). -/
def create_existing_recipe_list (search : String → Int × String × String)
    (app_name : String) (recipes : List RecipeState) :
    Except String (List RecipeState) :=
  existing_search_loop search (recipe_searches app_name) recipes

/-- Concrete search collaborator whose command always fails. -/
def failingSearch : String → Int × String × String := fun _ => (1, "", "boom")

/-- Counterexample to C3: when the external search command exits
non-zero, create_existing_recipe_list does not treat the variant as an
empty result and continue; it reaches robo_print with output type error,
which exits the process, so the resolver aborts the run. -/
theorem c3_counterexample :
    create_existing_recipe_list failingSearch "Foo" init_recipes =
      Except.error "boom" := by
  rfl

/-- C3 amended: whenever the external existing-recipe search command
fails on the first search variant (the exact subject name), the resolver
passes the stderr text to robo_print with output type error, which exits
the process with status 1; the run aborts instead of continuing. -/
theorem c3_search_failure_aborts (search : String → Int × String × String)
    (app_name : String) (recipes : List RecipeState) (dm vm : Bool)
    (h : (search app_name).1 ≠ 0) :
    create_existing_recipe_list search app_name recipes =
      Except.error (search app_name).2.2 ∧
    robo_print_effect "error" dm vm = PrintEffect.exitError := by
  constructor
  · unfold create_existing_recipe_list recipe_searches existing_search_loop
    simp [h]
  · rfl

/-- Witness for C3: the failing search collaborator satisfies the
hypothesis and the amended conclusion follows for a concrete run. -/
theorem c3_search_failure_aborts_witness :
    create_existing_recipe_list failingSearch "GrandPerspective" init_recipes =
      Except.error (failingSearch "GrandPerspective").2.2 ∧
    robo_print_effect "error" true false = PrintEffect.exitError :=
  c3_search_failure_aborts failingSearch "GrandPerspective" init_recipes
    true false (by decide)

/-- The facts gathered by handle_app_input before the recipe keys are
written (lines 828 to 945): subject name, the Sparkle feed and the
format of its download, the GitHub and SourceForge placeholders (always
empty in this version), minimum OS version, icon path, bundle
identifier, MacUpdate description, and the code signing results.  The
download format is an Option because get_sparkle_download_format can
return None. -/
structure AppFacts where
  app_name : String
  sparkle_feed : String
  github_repo : String
  sourceforge_id : String
  download_format : Option String
  min_sys_vers : String
  icon_path : String
  bundle_id : String
  description : String
  code_signed : Bool
  code_sign_reqs : String
  deriving DecidableEq

/-- Python str applied to the download format variable: None renders as
the string None when interpolated (the source comments call this out as
a bug at line 1066). -/
def pyStr : Option String → String
  | some s => s
  | none => "None"

/-- Python membership test of the download format variable in one of the
format lists: None is in no list. -/
def dfMem (df : Option String) (l : List String) : Bool :=
  match df with
  | some s => decide (s ∈ l)
  | none => false

/-- The SparkleUpdateInfoProvider step (lines 971 to 976). -/
def sparkleStep : PValue :=
  .dict [("Processor", .str "SparkleUpdateInfoProvider"),
         ("Arguments", .dict [("appcast_url", .str "%SPARKLE_FEED_URL%")])]

/-- The GitHubReleasesInfoProvider step (lines 979 to 984). -/
def githubStep (f : AppFacts) : PValue :=
  .dict [("Processor", .str "GitHubReleasesInfoProvider"),
         ("Arguments", .dict [("github_repo", .str f.github_repo)])]

/-- The URLDownloader step with the interpolated filename
(lines 992 to 997). -/
def urlDownloaderStep (f : AppFacts) : PValue :=
  .dict [("Processor", .str "URLDownloader"),
         ("Arguments", .dict [("filename",
            .str ("%NAME%-%version%." ++ pyStr f.download_format))])]

/-- The EndOfCheckPhase step (lines 998 to 1000). -/
def endOfCheckPhaseStep : PValue :=
  .dict [("Processor", .str "EndOfCheckPhase")]

/-- The CodeSignatureVerifier arguments (lines 1002 to 1010): the
requirement key is present only when a designated requirement line was
captured. -/
def code_sign_args (f : AppFacts) : PValue :=
  if f.code_sign_reqs ≠ "" then
    .dict [("input_path", .str ("%pathname%/" ++ f.app_name ++ ".app")),
           ("requirement", .str f.code_sign_reqs)]
  else
    .dict [("input_path", .str ("%pathname%/" ++ f.app_name ++ ".app"))]

/-- The CodeSignatureVerifier step (lines 1013 to 1016 and 1029 to 1032). -/
def csvStep (f : AppFacts) : PValue :=
  .dict [("Processor", .str "CodeSignatureVerifier"),
         ("Arguments", code_sign_args f)]

/-- The Unarchiver step of the download recipe (lines 1020 to 1028). -/
def unarchiverDlStep : PValue :=
  .dict [("Processor", .str "Unarchiver"),
         ("Arguments", .dict [("archive_path", .str "%pathname%"),
                              ("destination_path", .str "%RECIPE_CACHE_DIR%/%NAME%"),
                              ("purge_destination", .bool true)])]

/-- The PathDeleter cleanup step of the download recipe
(lines 1033 to 1040). -/
def pathDeleterStep : PValue :=
  .dict [("Processor", .str "PathDeleter"),
         ("Arguments", .dict [("path_list",
            .list [.str "%RECIPE_CACHE_DIR%/%NAME%"])])]

/-- Acquisition steps of the download recipe: the if and elif chain on
the Sparkle feed, GitHub repo and SourceForge id (lines 967 to 991).
The SourceForge branch adds Input keys but no Process step. -/
def acquisition_steps (f : AppFacts) : List PValue :=
  if f.sparkle_feed ≠ "" then [sparkleStep]
  else if f.github_repo ≠ "" then [githubStep f]
  else []

/-- Input keys written by the acquisition branch of the download recipe
(lines 967 to 990).  In the SourceForge branch the source has a stray
trailing comma at line 988, so SOURCEFORGE_FILE_PATTERN is a one-element
tuple rather than a plain string. -/
def acquisition_input (f : AppFacts) (m : String → Option PValue) :
    String → Option PValue :=
  if f.sparkle_feed ≠ "" then
    dictSet m "SPARKLE_FEED_URL" (.str f.sparkle_feed)
  else if f.github_repo ≠ "" then m
  else if f.sourceforge_id ≠ "" then
    dictSet
      (dictSet m "SOURCEFORGE_FILE_PATTERN"
        (.list [.str (f.app_name ++ "-[0-9_\\.]*\\." ++ pyStr f.download_format)]))
      "SOURCEFORGE_PROJECT_ID" (.str f.sourceforge_id)
  else m

/-- Code signing verification steps of the download recipe
(lines 1001 to 1040): only when the app is signed, with the branch on
the format tried in the source order image, installer, archive; archive
formats get Unarchiver before and PathDeleter after the verifier;
installer formats get nothing. -/
def signing_steps (f : AppFacts) : List PValue :=
  if f.code_signed = true then
    (if dfMem f.download_format supported_image_formats then [csvStep f]
     else if dfMem f.download_format supported_install_formats then []
     else if dfMem f.download_format supported_archive_formats then
       [unarchiverDlStep, csvStep f, pathDeleterStep]
     else [])
  else []

/-- The full Process list appended to the download recipe by
handle_app_input (lines 964 to 1040): acquisition steps, then the
URLDownloader fetch step and the EndOfCheckPhase marker, then the code
signing steps. -/
def download_process (f : AppFacts) : List PValue :=
  acquisition_steps f ++ [urlDownloaderStep f, endOfCheckPhaseStep] ++
    signing_steps f

/-- Membership in one concrete format list excludes the other two; the
three lists are pairwise disjoint. -/
theorem archive_excludes {s : String}
    (h : s ∈ supported_archive_formats) :
    s ∉ supported_image_formats ∧ s ∉ supported_install_formats := by
  simp only [supported_archive_formats, List.mem_cons, List.mem_singleton,
    List.not_mem_nil, or_false] at h
  rcases h with rfl | rfl | rfl | rfl <;> decide

/-- Installer formats are not image formats. -/
theorem install_excludes_image {s : String}
    (h : s ∈ supported_install_formats) : s ∉ supported_image_formats := by
  simp only [supported_install_formats, List.mem_cons, List.mem_singleton,
    List.not_mem_nil, or_false] at h
  rcases h with rfl | rfl <;> decide

/-- C5: for a code-signed app, the download Process ends, after the
URLDownloader fetch step and the EndOfCheckPhase marker, with Unarchiver
then CodeSignatureVerifier then PathDeleter in exactly that order when
the download format is an archive format; with the verifier alone for an
image format; and with no verification step at all for an installer
format. -/
theorem c5_signing_order (f : AppFacts) (hs : f.code_signed = true) :
    (dfMem f.download_format supported_archive_formats = true →
      download_process f =
        acquisition_steps f ++ [urlDownloaderStep f, endOfCheckPhaseStep] ++
          [unarchiverDlStep, csvStep f, pathDeleterStep]) ∧
    (dfMem f.download_format supported_image_formats = true →
      download_process f =
        acquisition_steps f ++ [urlDownloaderStep f, endOfCheckPhaseStep] ++
          [csvStep f]) ∧
    (dfMem f.download_format supported_install_formats = true →
      download_process f =
        acquisition_steps f ++ [urlDownloaderStep f, endOfCheckPhaseStep]) := by
  refine ⟨fun h => ?_, fun h => ?_, fun h => ?_⟩
  · cases hdf : f.download_format with
    | none => rw [hdf] at h; simp [dfMem] at h
    | some s =>
      rw [hdf] at h
      simp only [dfMem, decide_eq_true_eq] at h
      obtain ⟨hni, hnp⟩ := archive_excludes h
      unfold download_process signing_steps
      rw [hs, hdf]
      simp [dfMem, h, hni, hnp]
  · unfold download_process signing_steps
    rw [hs]
    simp [h]
  · cases hdf : f.download_format with
    | none => rw [hdf] at h; simp [dfMem] at h
    | some s =>
      rw [hdf] at h
      simp only [dfMem, decide_eq_true_eq] at h
      have hni := install_excludes_image h
      unfold download_process signing_steps
      rw [hs, hdf]
      simp [dfMem, h, hni]

/-- Concrete facts for the Cyberduck scenario: Sparkle feed present,
zip download, code signed. -/
def cyberduckFacts : AppFacts :=
  { app_name := "Cyberduck"
    sparkle_feed := "https://version.cyberduck.io/changelog.rss"
    github_repo := ""
    sourceforge_id := ""
    download_format := some "zip"
    min_sys_vers := "10.7"
    icon_path := "/Applications/Cyberduck.app/Contents/Resources/cyberduck-application.icns"
    bundle_id := "ch.sudo.cyberduck"
    description := "FTP and SFTP browser."
    code_signed := true
    code_sign_reqs := "anchor apple generic" }

/-- Witness for C5: the Cyberduck facts are code signed with an archive
format, and the download Process takes the claimed shape. -/
theorem c5_signing_order_witness :
    cyberduckFacts.code_signed = true ∧
    dfMem cyberduckFacts.download_format supported_archive_formats = true ∧
    download_process cyberduckFacts =
      acquisition_steps cyberduckFacts ++
        [urlDownloaderStep cyberduckFacts, endOfCheckPhaseStep] ++
        [unarchiverDlStep, csvStep cyberduckFacts, pathDeleterStep] :=
  ⟨rfl, by decide, (c5_signing_order cyberduckFacts rfl).1 (by decide)⟩

/-- The MunkiImporter step (lines 1063 to 1070); pkg_path interpolates
str of the download format, which renders None as the string None. -/
def munkiImporterStep (f : AppFacts) : PValue :=
  .dict [("Processor", .str "MunkiImporter"),
         ("Arguments", .dict [
            ("pkg_path", .str ("%RECIPE_CACHE_DIR%/%NAME%." ++ pyStr f.download_format)),
            ("repo_subdirectory", .str "%MUNKI_REPO_SUBDIR%")])]

/-- The pkginfo Input mapping of the munki recipe (lines 1055 to 1062). -/
def munki_pkginfo (f : AppFacts) : PValue :=
  .dict [("catalogs", .list [.str "testing"]),
         ("description", .str f.description),
         ("display_name", .str f.app_name),
         ("icon_name", .str (f.app_name ++ ".png")),
         ("name", .str f.app_name),
         ("unattended_install", .bool true)]

/-- The PkgRootCreator step of the pkg recipe (lines 1079 to 1087). -/
def pkgRootCreatorStep : PValue :=
  .dict [("Processor", .str "PkgRootCreator"),
         ("Arguments", .dict [("pkgroot", .str "%RECIPE_CACHE_DIR%/%NAME%"),
                              ("pkgdirs", .dict [("Applications", .str "0775")])])]

/-- The AppDmgVersioner step of the pkg recipe (lines 1090 to 1095). -/
def appDmgVersionerStep : PValue :=
  .dict [("Processor", .str "AppDmgVersioner"),
         ("Arguments", .dict [("dmg_path", .str "%pathname%")])]

/-- The Copier step of the pkg recipe (lines 1096 to 1102). -/
def copierStep : PValue :=
  .dict [("Processor", .str "Copier"),
         ("Arguments", .dict [("source_path", .str "%pathname%/%NAME%.app"),
                              ("destination_path", .str "%pkgroot%/Applications/%NAME%.app")])]

/-- The Unarchiver step of the pkg recipe (lines 1108 to 1114); unlike
the download recipe it has no purge_destination key. -/
def unarchiverPkgStep : PValue :=
  .dict [("Processor", .str "Unarchiver"),
         ("Arguments", .dict [("archive_path", .str "%pathname%"),
                              ("destination_path", .str "%RECIPE_CACHE_DIR%/%NAME%/Applications")])]

/-- The Versioner step of the pkg recipe (lines 1115 to 1121). -/
def versionerStep : PValue :=
  .dict [("Processor", .str "Versioner"),
         ("Arguments", .dict [
            ("input_plist_path",
             .str "%RECIPE_CACHE_DIR%/%NAME%/Applications/%NAME%.app/Contents/Info.plist"),
            ("plist_version_key", .str "CFBundleShortVersionString")])]

/-- The PkgCreator step of the pkg recipe (lines 1123 to 1138). -/
def pkgCreatorStep : PValue :=
  .dict [("Processor", .str "PkgCreator"),
         ("Arguments", .dict [("pkg_request", .dict [
            ("pkgname", .str "%NAME%-%version%"),
            ("version", .str "%version%"),
            ("id", .str "%PKG_ID%"),
            ("options", .str "purge_ds_store"),
            ("chown", .list [.dict [("path", .str "Applications"),
                                    ("user", .str "root"),
                                    ("group", .str "admin")]])])])]

/-- Format-dependent middle steps of the pkg recipe
(lines 1088 to 1122), with the branch order image, installer, archive
as in the source. -/
def pkg_format_steps (f : AppFacts) : List PValue :=
  if dfMem f.download_format supported_image_formats then
    [appDmgVersionerStep, copierStep]
  else if dfMem f.download_format supported_install_formats then []
  else if dfMem f.download_format supported_archive_formats then
    [unarchiverPkgStep, versionerStep]
  else []

/-- Keys written when the buildable download recipe is handled
(lines 964 to 1040).  The Description interpolates the NAME input, which
was just set to the app name. -/
def download_branch (f : AppFacts) (k : RecipeKeys) : RecipeKeys :=
  { k with
    description := some ("Downloads the latest version of " ++ f.app_name ++ ".")
    input := acquisition_input f k.input
    process := k.process ++ download_process f }

/-- Keys written when the buildable munki recipe is handled
(lines 1042 to 1070); the icon extraction at lines 1048 to 1051 writes
a file on disk and touches no recipe key. -/
def munki_branch (pfx : String) (f : AppFacts) (k : RecipeKeys) : RecipeKeys :=
  { k with
    description := some ("Imports the latest version of " ++ f.app_name ++ " into Munki.")
    parentRecipe := some (pfx ++ ".download." ++ f.app_name)
    input := dictSet
      (dictSet k.input "MUNKI_REPO_SUBDIR" (.str ("apps/" ++ f.app_name)))
      "pkginfo" (munki_pkginfo f)
    process := k.process ++ [munkiImporterStep f] }

/-- Keys written when the buildable pkg recipe is handled
(lines 1072 to 1138): PKG_ID only when a bundle identifier was found,
then PkgRootCreator, the format branch, and PkgCreator. -/
def pkg_branch (pfx : String) (f : AppFacts) (k : RecipeKeys) : RecipeKeys :=
  { k with
    description := some ("Downloads the latest version of " ++ f.app_name ++
      " and creates an installer package.")
    parentRecipe := some (pfx ++ ".download." ++ f.app_name)
    input := if f.bundle_id ≠ "" then dictSet k.input "PKG_ID" (.str f.bundle_id)
             else k.input
    process := k.process ++ [pkgRootCreatorStep] ++ pkg_format_steps f ++
      [pkgCreatorStep] }

/-- Keys written when the buildable install recipe is handled
(lines 1140 to 1144): description and a pkg parent recipe. -/
def install_branch (pfx : String) (f : AppFacts) (k : RecipeKeys) : RecipeKeys :=
  { k with
    description := some ("Installs the latest version of " ++ f.app_name ++ ".")
    parentRecipe := some (pfx ++ ".pkg." ++ f.app_name) }

/-- Keys written when the buildable jss recipe is handled
(lines 1146 to 1169), in the source assignment order. -/
def jss_branch (pfx : String) (f : AppFacts) (k : RecipeKeys) : RecipeKeys :=
  let i1 := dictSet k.input "category" (.str "None")
  let i2 := dictSet i1 "policy_category" (.str "Testing")
  let i3 := dictSet i2 "policy_template" (.str "PolicyTemplate.xml")
  let i4 := dictSet i3 "groups" (.list [])
  let i5 := dictSet i4 "GROUP_TEMPLATE" (.str "SmartGroupTemplate.xml")
  let i6 := dictSet i5 "prod_name" (.str f.app_name)
  let i7 := if f.icon_path ≠ "" then
      dictSet i6 "self_service_icon" (.str (f.app_name ++ ".png"))
    else i6
  let i8 := dictSet i7 "self_service_description" (.str f.description)
  let i9 := dictSet i8 "GROUP_NAME" (.str (f.app_name ++ "-update-smart"))
  { k with
    description := some ("Imports the latest version of " ++ f.app_name ++
      " into your JSS.")
    parentRecipe := some (pfx ++ ".pkg." ++ f.app_name)
    input := i9 }

/-- Keys written when the buildable absolute recipe is handled
(lines 1171 to 1175). -/
def absolute_branch (pfx : String) (f : AppFacts) (k : RecipeKeys) : RecipeKeys :=
  { k with
    description := some ("Imports the latest version of " ++ f.app_name ++
      " into Absolute Manage.")
    parentRecipe := some (pfx ++ ".pkg." ++ f.app_name) }

/-- Keys written when the buildable sccm recipe is handled
(lines 1177 to 1181). -/
def sccm_branch (pfx : String) (f : AppFacts) (k : RecipeKeys) : RecipeKeys :=
  { k with
    description := some ("Downloads the latest version of " ++ f.app_name ++
      " and creates a cmmac package for deploying via Microsoft SCCM.")
    parentRecipe := some (pfx ++ ".pkg." ++ f.app_name) }

/-- Keys written when the buildable ds recipe is handled
(lines 1183 to 1187). -/
def ds_branch (pfx : String) (f : AppFacts) (k : RecipeKeys) : RecipeKeys :=
  { k with
    description := some ("Imports the latest version of " ++ f.app_name ++
      " into DeployStudio.")
    parentRecipe := some (pfx ++ ".download." ++ f.app_name) }

/-- The per-recipe body of the key-writing loop at the end of
handle_app_input (lines 955 to 1187): NAME and Identifier are set for
every recipe; when the recipe is buildable, each name test is tried in
sequence exactly as the chain of plain if statements in the source. -/
def handle_app_input_recipe (pfx : String) (f : AppFacts) (r : RecipeState) :
    RecipeState :=
  let k0 := { r.keys with
    input := dictSet r.keys.input "NAME" (.str f.app_name)
    identifier := pfx ++ "." ++ r.name ++ "." ++ f.app_name }
  let k :=
    if r.buildable = true then
      let k1 := if r.name = "download" then download_branch f k0 else k0
      let k2 := if r.name = "munki" then munki_branch pfx f k1 else k1
      let k3 := if r.name = "pkg" then pkg_branch pfx f k2 else k2
      let k4 := if r.name = "install" then install_branch pfx f k3 else k3
      let k5 := if r.name = "jss" then jss_branch pfx f k4 else k4
      let k6 := if r.name = "absolute" then absolute_branch pfx f k5 else k5
      let k7 := if r.name = "sccm" then sccm_branch pfx f k6 else k6
      if r.name = "ds" then ds_branch pfx f k7 else k7
    else k0
  { r with keys := k }

/-- Concrete facts for an app named Foo with a Sparkle feed and a zip
download. -/
def fooFacts : AppFacts :=
  { app_name := "Foo"
    sparkle_feed := "https://example.com/appcast.xml"
    github_repo := ""
    sourceforge_id := ""
    download_format := some "zip"
    min_sys_vers := ""
    icon_path := ""
    bundle_id := ""
    description := ""
    code_signed := true
    code_sign_reqs := "" }

/-- The install recipe record as initialized and then marked buildable. -/
def installReady : RecipeState :=
  { name := "install"
    description := "Installs the app on the computer running AutoPkg."
    preferred := true
    existing := false
    buildable := true
    selected := true
    icon_path := ""
    keys := init_keys }

/-- The ds recipe record as initialized and then marked buildable. -/
def dsReady : RecipeState :=
  { name := "ds"
    description := "Imports into your DeployStudio Packages folder."
    preferred := true
    existing := false
    buildable := true
    selected := true
    icon_path := ""
    keys := init_keys }

/-- Counterexample to C4: for an application-bundle input the buildable
install recipe receives ParentRecipe prefix dot pkg dot name
(line 1143), not the download identifier the claim asserts. -/
theorem c4_counterexample :
    (handle_app_input_recipe "com.github.homebysix" fooFacts installReady).keys.parentRecipe =
      some "com.github.homebysix.pkg.Foo" ∧
    (handle_app_input_recipe "com.github.homebysix" fooFacts installReady).keys.parentRecipe ≠
      some "com.github.homebysix.download.Foo" := by
  constructor
  · rfl
  · decide

/-- C4 amended: of the two kinds the claim names, only the ds recipe has
its parent rooted at the download recipe; the install recipe synthesized
from an application bundle points at the pkg recipe instead, so its
ParentRecipe is prefix dot pkg dot subject name while the ds recipe gets
prefix dot download dot subject name. -/
theorem c4_install_ds_parents (pfx : String) (f : AppFacts) (r : RecipeState)
    (hb : r.buildable = true) :
    (r.name = "install" →
      (handle_app_input_recipe pfx f r).keys.parentRecipe =
        some (pfx ++ ".pkg." ++ f.app_name)) ∧
    (r.name = "ds" →
      (handle_app_input_recipe pfx f r).keys.parentRecipe =
        some (pfx ++ ".download." ++ f.app_name)) := by
  constructor
  · intro hn
    simp [handle_app_input_recipe, hb, hn, install_branch]
  · intro hn
    simp [handle_app_input_recipe, hb, hn, ds_branch]

/-- Witness for C4: the buildable ds record satisfies the hypothesis and
receives the download-rooted parent identifier. -/
theorem c4_install_ds_parents_witness :
    dsReady.buildable = true ∧
    (handle_app_input_recipe "com.github.homebysix" fooFacts dsReady).keys.parentRecipe =
      some ("com.github.homebysix" ++ ".download." ++ fooFacts.app_name) :=
  ⟨rfl, (c4_install_ds_parents "com.github.homebysix" fooFacts dsReady rfl).2 rfl⟩

/-- The acquisition branch never touches the NAME input key. -/
theorem acquisition_input_NAME (f : AppFacts) (m : String → Option PValue) :
    acquisition_input f m "NAME" = m "NAME" := by
  unfold acquisition_input
  split_ifs <;> simp [dictSet]

@[simp] theorem download_branch_minVer (f : AppFacts) (k : RecipeKeys) :
    (download_branch f k).minimumVersion = k.minimumVersion := rfl

@[simp] theorem download_branch_comment (f : AppFacts) (k : RecipeKeys) :
    (download_branch f k).comment = k.comment := rfl

@[simp] theorem download_branch_identifier (f : AppFacts) (k : RecipeKeys) :
    (download_branch f k).identifier = k.identifier := rfl

@[simp] theorem download_branch_parent (f : AppFacts) (k : RecipeKeys) :
    (download_branch f k).parentRecipe = k.parentRecipe := rfl

@[simp] theorem download_branch_NAME (f : AppFacts) (k : RecipeKeys) :
    (download_branch f k).input "NAME" = k.input "NAME" :=
  acquisition_input_NAME f k.input

@[simp] theorem munki_branch_minVer (pfx : String) (f : AppFacts) (k : RecipeKeys) :
    (munki_branch pfx f k).minimumVersion = k.minimumVersion := rfl

@[simp] theorem munki_branch_comment (pfx : String) (f : AppFacts) (k : RecipeKeys) :
    (munki_branch pfx f k).comment = k.comment := rfl

@[simp] theorem munki_branch_identifier (pfx : String) (f : AppFacts) (k : RecipeKeys) :
    (munki_branch pfx f k).identifier = k.identifier := rfl

@[simp] theorem munki_branch_parent (pfx : String) (f : AppFacts) (k : RecipeKeys) :
    (munki_branch pfx f k).parentRecipe = some (pfx ++ ".download." ++ f.app_name) := rfl

@[simp] theorem munki_branch_NAME (pfx : String) (f : AppFacts) (k : RecipeKeys) :
    (munki_branch pfx f k).input "NAME" = k.input "NAME" := by
  simp [munki_branch, dictSet]

@[simp] theorem pkg_branch_minVer (pfx : String) (f : AppFacts) (k : RecipeKeys) :
    (pkg_branch pfx f k).minimumVersion = k.minimumVersion := rfl

@[simp] theorem pkg_branch_comment (pfx : String) (f : AppFacts) (k : RecipeKeys) :
    (pkg_branch pfx f k).comment = k.comment := rfl

@[simp] theorem pkg_branch_identifier (pfx : String) (f : AppFacts) (k : RecipeKeys) :
    (pkg_branch pfx f k).identifier = k.identifier := rfl

@[simp] theorem pkg_branch_parent (pfx : String) (f : AppFacts) (k : RecipeKeys) :
    (pkg_branch pfx f k).parentRecipe = some (pfx ++ ".download." ++ f.app_name) := rfl

@[simp] theorem pkg_branch_NAME (pfx : String) (f : AppFacts) (k : RecipeKeys) :
    (pkg_branch pfx f k).input "NAME" = k.input "NAME" := by
  simp only [pkg_branch]
  split_ifs <;> simp [dictSet]

@[simp] theorem install_branch_minVer (pfx : String) (f : AppFacts) (k : RecipeKeys) :
    (install_branch pfx f k).minimumVersion = k.minimumVersion := rfl

@[simp] theorem install_branch_comment (pfx : String) (f : AppFacts) (k : RecipeKeys) :
    (install_branch pfx f k).comment = k.comment := rfl

@[simp] theorem install_branch_identifier (pfx : String) (f : AppFacts) (k : RecipeKeys) :
    (install_branch pfx f k).identifier = k.identifier := rfl

@[simp] theorem install_branch_parent (pfx : String) (f : AppFacts) (k : RecipeKeys) :
    (install_branch pfx f k).parentRecipe = some (pfx ++ ".pkg." ++ f.app_name) := rfl

@[simp] theorem install_branch_NAME (pfx : String) (f : AppFacts) (k : RecipeKeys) :
    (install_branch pfx f k).input "NAME" = k.input "NAME" := rfl

@[simp] theorem jss_branch_minVer (pfx : String) (f : AppFacts) (k : RecipeKeys) :
    (jss_branch pfx f k).minimumVersion = k.minimumVersion := rfl

@[simp] theorem jss_branch_comment (pfx : String) (f : AppFacts) (k : RecipeKeys) :
    (jss_branch pfx f k).comment = k.comment := rfl

@[simp] theorem jss_branch_identifier (pfx : String) (f : AppFacts) (k : RecipeKeys) :
    (jss_branch pfx f k).identifier = k.identifier := rfl

@[simp] theorem jss_branch_parent (pfx : String) (f : AppFacts) (k : RecipeKeys) :
    (jss_branch pfx f k).parentRecipe = some (pfx ++ ".pkg." ++ f.app_name) := rfl

@[simp] theorem jss_branch_NAME (pfx : String) (f : AppFacts) (k : RecipeKeys) :
    (jss_branch pfx f k).input "NAME" = k.input "NAME" := by
  simp only [jss_branch]
  split_ifs <;> simp [dictSet]

@[simp] theorem absolute_branch_minVer (pfx : String) (f : AppFacts) (k : RecipeKeys) :
    (absolute_branch pfx f k).minimumVersion = k.minimumVersion := rfl

@[simp] theorem absolute_branch_comment (pfx : String) (f : AppFacts) (k : RecipeKeys) :
    (absolute_branch pfx f k).comment = k.comment := rfl

@[simp] theorem absolute_branch_identifier (pfx : String) (f : AppFacts) (k : RecipeKeys) :
    (absolute_branch pfx f k).identifier = k.identifier := rfl

@[simp] theorem absolute_branch_parent (pfx : String) (f : AppFacts) (k : RecipeKeys) :
    (absolute_branch pfx f k).parentRecipe = some (pfx ++ ".pkg." ++ f.app_name) := rfl

@[simp] theorem absolute_branch_NAME (pfx : String) (f : AppFacts) (k : RecipeKeys) :
    (absolute_branch pfx f k).input "NAME" = k.input "NAME" := rfl

@[simp] theorem sccm_branch_minVer (pfx : String) (f : AppFacts) (k : RecipeKeys) :
    (sccm_branch pfx f k).minimumVersion = k.minimumVersion := rfl

@[simp] theorem sccm_branch_comment (pfx : String) (f : AppFacts) (k : RecipeKeys) :
    (sccm_branch pfx f k).comment = k.comment := rfl

@[simp] theorem sccm_branch_identifier (pfx : String) (f : AppFacts) (k : RecipeKeys) :
    (sccm_branch pfx f k).identifier = k.identifier := rfl

@[simp] theorem sccm_branch_parent (pfx : String) (f : AppFacts) (k : RecipeKeys) :
    (sccm_branch pfx f k).parentRecipe = some (pfx ++ ".pkg." ++ f.app_name) := rfl

@[simp] theorem sccm_branch_NAME (pfx : String) (f : AppFacts) (k : RecipeKeys) :
    (sccm_branch pfx f k).input "NAME" = k.input "NAME" := rfl

@[simp] theorem ds_branch_minVer (pfx : String) (f : AppFacts) (k : RecipeKeys) :
    (ds_branch pfx f k).minimumVersion = k.minimumVersion := rfl

@[simp] theorem ds_branch_comment (pfx : String) (f : AppFacts) (k : RecipeKeys) :
    (ds_branch pfx f k).comment = k.comment := rfl

@[simp] theorem ds_branch_identifier (pfx : String) (f : AppFacts) (k : RecipeKeys) :
    (ds_branch pfx f k).identifier = k.identifier := rfl

@[simp] theorem ds_branch_parent (pfx : String) (f : AppFacts) (k : RecipeKeys) :
    (ds_branch pfx f k).parentRecipe = some (pfx ++ ".download." ++ f.app_name) := rfl

@[simp] theorem ds_branch_NAME (pfx : String) (f : AppFacts) (k : RecipeKeys) :
    (ds_branch pfx f k).input "NAME" = k.input "NAME" := rfl

/-- The key loop preserves MinimumVersion for every recipe. -/
theorem handle_app_minVer (pfx : String) (f : AppFacts) (r : RecipeState) :
    (handle_app_input_recipe pfx f r).keys.minimumVersion =
      r.keys.minimumVersion := by
  simp [handle_app_input_recipe, apply_ite RecipeKeys.minimumVersion]

/-- The key loop preserves the Comment for every recipe. -/
theorem handle_app_comment (pfx : String) (f : AppFacts) (r : RecipeState) :
    (handle_app_input_recipe pfx f r).keys.comment = r.keys.comment := by
  simp [handle_app_input_recipe, apply_ite RecipeKeys.comment]

/-- The key loop sets the Identifier of every recipe, buildable or not. -/
theorem handle_app_identifier (pfx : String) (f : AppFacts) (r : RecipeState) :
    (handle_app_input_recipe pfx f r).keys.identifier =
      pfx ++ "." ++ r.name ++ "." ++ f.app_name := by
  simp [handle_app_input_recipe, apply_ite RecipeKeys.identifier]

/-- The key loop sets the NAME input of every recipe, buildable or not. -/
theorem handle_app_NAME (pfx : String) (f : AppFacts) (r : RecipeState) :
    (handle_app_input_recipe pfx f r).keys.input "NAME" =
      some (PValue.str f.app_name) := by
  simp [handle_app_input_recipe, apply_ite (fun k => RecipeKeys.input k "NAME"),
    dictSet]

/-- C10: every recipe record built by init_recipes starts with
MinimumVersion 0.5.0 and the generator Comment, and after the
application-bundle key loop every recipe, buildable or not and whatever
its resolution flags, keeps those two keys and carries Input NAME equal
to the subject name and Identifier equal to prefix dot kind dot subject
name. -/
theorem c10_universal_keys (pfx : String) (f : AppFacts) (b p e s : Bool) :
    ∀ r0 ∈ init_recipes,
      r0.keys.minimumVersion = "0.5.0" ∧
      r0.keys.comment = generator_comment ∧
      (handle_app_input_recipe pfx f
        { r0 with preferred := p, existing := e, buildable := b,
                  selected := s }).keys.minimumVersion = "0.5.0" ∧
      (handle_app_input_recipe pfx f
        { r0 with preferred := p, existing := e, buildable := b,
                  selected := s }).keys.comment = generator_comment ∧
      (handle_app_input_recipe pfx f
        { r0 with preferred := p, existing := e, buildable := b,
                  selected := s }).keys.input "NAME" = some (PValue.str f.app_name) ∧
      (handle_app_input_recipe pfx f
        { r0 with preferred := p, existing := e, buildable := b,
                  selected := s }).keys.identifier =
        pfx ++ "." ++ r0.name ++ "." ++ f.app_name := by
  intro r0 h0
  obtain ⟨nd, hnd, rfl⟩ := List.mem_map.mp h0
  exact ⟨rfl, rfl,
    by rw [handle_app_minVer]; rfl,
    by rw [handle_app_comment]; rfl,
    handle_app_NAME pfx f _,
    by rw [handle_app_identifier]⟩

/-- The download recipe record as produced by init_recipes. -/
def dlInit : RecipeState :=
  mkRecipe ("download", "Downloads an app in whatever format the developer provides.")

/-- Witness for C10: the initialized download record is a member of the
recipe list and the conclusion holds for it with concrete facts. -/
theorem c10_universal_keys_witness :
    dlInit ∈ init_recipes ∧
    (dlInit.keys.minimumVersion = "0.5.0" ∧
     dlInit.keys.comment = generator_comment ∧
     (handle_app_input_recipe "com.github.homebysix" fooFacts
       { dlInit with preferred := true, existing := false, buildable := true,
                     selected := true }).keys.minimumVersion = "0.5.0" ∧
     (handle_app_input_recipe "com.github.homebysix" fooFacts
       { dlInit with preferred := true, existing := false, buildable := true,
                     selected := true }).keys.comment = generator_comment ∧
     (handle_app_input_recipe "com.github.homebysix" fooFacts
       { dlInit with preferred := true, existing := false, buildable := true,
                     selected := true }).keys.input "NAME" =
        some (PValue.str fooFacts.app_name) ∧
     (handle_app_input_recipe "com.github.homebysix" fooFacts
       { dlInit with preferred := true, existing := false, buildable := true,
                     selected := true }).keys.identifier =
        "com.github.homebysix" ++ "." ++ dlInit.name ++ "." ++ fooFacts.app_name) :=
  ⟨List.mem_map_of_mem mkRecipe (by decide),
   c10_universal_keys "com.github.homebysix" fooFacts true true false true dlInit
     (List.mem_map_of_mem mkRecipe (by decide))⟩

/-- The per-recipe body of the key-writing loop of
handle_download_recipe_input (lines 1230 to 1350): NAME and ParentRecipe
are set unconditionally for every recipe, ParentRecipe to the input
recipe Identifier; then, for a buildable pkg recipe with an image or
archive download format, the source indexes recipe with the key Process
at lines 1241 and 1283, a key the recipe record does not have, raising
KeyError, modelled as Except.error.  All other buildable branches only
contain pass statements. -/
def handle_download_recipe_input_keys (app_name ident parsed_fmt : String)
    (r : RecipeState) : Except String RecipeState :=
  let r1 := { r with keys := { r.keys with
    input := dictSet r.keys.input "NAME" (.str app_name)
    parentRecipe := some ident } }
  if r1.buildable = true then
    (if r1.name = "pkg" then
      (if parsed_fmt ∈ supported_image_formats then
        Except.error "KeyError: Process"
      else if parsed_fmt ∈ supported_archive_formats then
        Except.error "KeyError: Process"
      else Except.ok r1)
    else Except.ok r1)
  else Except.ok r1

/-- The download recipe record marked buildable. -/
def dlReady : RecipeState :=
  { name := "download"
    description := "Downloads an app in whatever format the developer provides."
    preferred := true
    existing := false
    buildable := true
    selected := true
    icon_path := ""
    keys := init_keys }

/-- Counterexample to C7: for a download-recipe input, the finished
download document does carry a ParentRecipe key, set to the input recipe
Identifier at line 1232, even though the download kind has no parent
kind. -/
theorem c7_counterexample :
    (handle_download_recipe_input_keys "Foo" "com.example.orig.download.Foo" ""
        dlReady).map (fun r => r.keys.parentRecipe) =
      Except.ok (some "com.example.orig.download.Foo") := by
  rfl

/-- C7 amended: for application-bundle inputs the finished document has
a ParentRecipe key exactly when the kind is buildable and is not the
download kind; for download-recipe inputs every recipe the handler
completes, the download kind included, has ParentRecipe set to the input
recipe Identifier. -/
theorem c7_parent_recipe_key (pfx : String) (f : AppFacts)
    (nm ident fmt : String) (b : Bool) :
    (∀ r0 ∈ init_recipes,
      (handle_app_input_recipe pfx f
        { r0 with buildable := b }).keys.parentRecipe.isSome =
        (b && !(r0.name == "download"))) ∧
    (∀ r1 r2 : RecipeState,
      handle_download_recipe_input_keys nm ident fmt r1 = Except.ok r2 →
        r2.keys.parentRecipe = some ident) := by
  constructor
  · intro r0 h0
    simp only [init_recipes, recipe_type_catalog, List.map_cons, List.map_nil] at h0
    fin_cases h0 <;>
      cases b <;>
        simp [handle_app_input_recipe, mkRecipe, init_keys,
          download_branch, munki_branch, pkg_branch, install_branch,
          jss_branch, absolute_branch, sccm_branch, ds_branch]
  · intro r1 r2 h
    by_cases hb : r1.buildable = true
    · by_cases hn : r1.name = "pkg"
      · by_cases h1 : fmt ∈ supported_image_formats
        · simp [handle_download_recipe_input_keys, hb, hn, h1] at h
        · by_cases h2 : fmt ∈ supported_archive_formats
          · simp [handle_download_recipe_input_keys, hb, hn, h1, h2] at h
          · simp [handle_download_recipe_input_keys, hb, hn, h1, h2] at h
            rw [← h]
      · simp [handle_download_recipe_input_keys, hb, hn] at h
        rw [← h]
    · simp [handle_download_recipe_input_keys, hb] at h
      rw [← h]

/-- The state of the buildable download record after the
download-recipe-input key loop, with ParentRecipe pointing at the input
recipe Identifier. -/
def dlReadyOut : RecipeState :=
  { dlReady with keys := { dlReady.keys with
      input := dictSet dlReady.keys.input "NAME" (PValue.str "Foo")
      parentRecipe := some "com.example.orig.download.Foo" } }

/-- Witness for C7: both parts instantiated, the first at the
initialized download record, the second at the buildable download record
run through the download-recipe-input key loop. -/
theorem c7_parent_recipe_key_witness :
    dlInit ∈ init_recipes ∧
    (handle_app_input_recipe "com.github.homebysix" fooFacts
      { dlInit with buildable := true }).keys.parentRecipe.isSome =
      (true && !(dlInit.name == "download")) ∧
    dlReadyOut.keys.parentRecipe = some "com.example.orig.download.Foo" :=
  ⟨List.mem_map_of_mem mkRecipe (by decide),
   (c7_parent_recipe_key "com.github.homebysix" fooFacts "Foo"
      "com.example.orig.download.Foo" "" true).1 dlInit
     (List.mem_map_of_mem mkRecipe (by decide)),
   (c7_parent_recipe_key "com.github.homebysix" fooFacts "Foo"
      "com.example.orig.download.Foo" "" true).2 dlReady dlReadyOut (by rfl)⟩

/-- Python str.startswith as a literal prefix test on character lists. -/
def pyStartswith (pre s : String) : Bool := litAt pre.toList s.toList

/-- Index of the first occurrence of a pattern in a character list. -/
def findIdxAux (pat : List Char) : List Char → Option Nat
  | [] => if litAt pat [] then some 0 else none
  | c :: cs =>
    if litAt pat (c :: cs) then some 0
    else (findIdxAux pat cs).map (fun n => n + 1)

/-- Python str.find: the lowest index where the substring occurs, and
minus one when it does not occur. -/
def pyFind (sub s : String) : Int :=
  match findIdxAux sub.toList s.toList with
  | some n => Int.ofNat n
  | none => -1

/-- The handlers main can invoke for one input string. -/
inductive UrlAction where
  | github_url
  | sourceforge_url
  | download_url
  | path_handling
  deriving DecidableEq

/-- The URL dispatch at the top of main (lines 1966 to 1974): for an
http input, the source tests the truthiness of str.find, which is zero
only when the substring sits at index zero, and the GitHub test is a
plain if rather than part of the elif chain, so the list of invoked
handlers can have more than one element.  Inputs that are not URLs fall
through to the path handling chain, abstracted as one action here. -/
def classify_url (input_path : String) : List UrlAction :=
  if pyStartswith "http" input_path then
    (if pyFind "github.com" input_path ≠ 0 then [UrlAction.github_url] else []) ++
    (if pyFind "sourceforge.com" input_path ≠ 0 then [UrlAction.sourceforge_url]
     else [UrlAction.download_url])
  else if pyStartswith "ftp" input_path then [UrlAction.download_url]
  else [UrlAction.path_handling]

/-- C6 is a code bug: for an http input that contains no source-hosting
domain, str.find returns minus one, which is truthy in Python, so main
invokes the GitHub handler and the SourceForge handler and never the
generic download handler; the same happens even for a genuine GitHub
URL.  Exactly one classification is never chosen for web inputs. -/
theorem c6_web_url_misclassified :
    classify_url "http://example.com/app.zip" =
      [UrlAction.github_url, UrlAction.sourceforge_url] ∧
    UrlAction.download_url ∉ classify_url "http://example.com/app.zip" ∧
    classify_url "https://github.com/homebysix/recipe-robot" =
      [UrlAction.github_url, UrlAction.sourceforge_url] := by
  decide

/-- Splitting a character list into newline-separated lines. -/
def splitLinesAux : List Char → List Char → List (List Char)
  | acc, [] => [acc.reverse]
  | acc, c :: cs =>
    if c = '\n' then acc.reverse :: splitLinesAux [] cs
    else splitLinesAux (c :: acc) cs

/-- The lines of a character list, in the sense of grep and of Python
str.split on a newline. -/
def splitLines (s : List Char) : List (List Char) := splitLinesAux [] s

/-- One grep match attempt for the pattern dot fmt string-close-tag at
some position of a line: the regular expression dot consumes one
arbitrary character and the rest of the pattern is literal. -/
def grepLineHit (pat : List Char) : List Char → Bool
  | [] => false
  | _ :: cs => litAt pat cs || grepLineHit pat cs

/-- Whether grep with the pattern built at line 1220 of the source
exits with status zero on the recipe body: some line contains one
arbitrary character followed by the format name and the literal
string-close tag. -/
def grepFormatHit (fmt : String) (body : String) : Bool :=
  (splitLines body.toList).any
    (fun line => grepLineHit (fmt.toList ++ "</string>".toList) line)

/-- The download format resolution loop of handle_download_recipe_input
(lines 1217 to 1225): formats are tried in the order of
all_supported_formats and the loop breaks at the first grep hit; when no
format hits, the variable keeps its initial empty value. -/
def parsed_download_format (body : String) : String :=
  match all_supported_formats.find? (fun fmt => grepFormatHit fmt body) with
  | some fmt => fmt
  | none => ""

/-- C8: the container format of a recipe-of-kind input is resolved by
scanning the body for each known format in the fixed order image
formats, archive formats, installer formats, first hit winning; in
particular a body in which the dmg pattern hits resolves to dmg, which
is in the image format list, so child kinds take the disk-image branch. -/
theorem c8_format_scan (body : String) :
    parsed_download_format body =
      (if grepFormatHit "dmg" body then "dmg"
       else if grepFormatHit "iso" body then "iso"
       else if grepFormatHit "zip" body then "zip"
       else if grepFormatHit "tar.gz" body then "tar.gz"
       else if grepFormatHit "gzip" body then "gzip"
       else if grepFormatHit "tar.bz2" body then "tar.bz2"
       else if grepFormatHit "pkg" body then "pkg"
       else if grepFormatHit "mpkg" body then "mpkg"
       else "") ∧
    (grepFormatHit "dmg" body = true →
      parsed_download_format body = "dmg" ∧
      dfMem (some (parsed_download_format body)) supported_image_formats = true) := by
  have hmain : parsed_download_format body =
      (if grepFormatHit "dmg" body then "dmg"
       else if grepFormatHit "iso" body then "iso"
       else if grepFormatHit "zip" body then "zip"
       else if grepFormatHit "tar.gz" body then "tar.gz"
       else if grepFormatHit "gzip" body then "gzip"
       else if grepFormatHit "tar.bz2" body then "tar.bz2"
       else if grepFormatHit "pkg" body then "pkg"
       else if grepFormatHit "mpkg" body then "mpkg"
       else "") := by
    simp only [parsed_download_format, all_supported_formats,
      supported_image_formats, supported_archive_formats,
      supported_install_formats, List.cons_append, List.nil_append,
      List.find?]
    by_cases h1 : grepFormatHit "dmg" body
    · simp only [h1, if_true, if_false]
    · simp only [h1, if_true, if_false]
      by_cases h2 : grepFormatHit "iso" body
      · simp only [h2, if_true, if_false]
        rfl
      · simp only [h2, if_true, if_false]
        by_cases h3 : grepFormatHit "zip" body
        · simp only [h3, if_true, if_false]
          rfl
        · simp only [h3, if_true, if_false]
          by_cases h4 : grepFormatHit "tar.gz" body
          · simp only [h4, if_true, if_false]
            rfl
          · simp only [h4, if_true, if_false]
            by_cases h5 : grepFormatHit "gzip" body
            · simp only [h5, if_true, if_false]
              rfl
            · simp only [h5, if_true, if_false]
              by_cases h6 : grepFormatHit "tar.bz2" body
              · simp only [h6, if_true, if_false]
                rfl
              · simp only [h6, if_true, if_false]
                by_cases h7 : grepFormatHit "pkg" body
                · simp only [h7, if_true, if_false]
                  rfl
                · simp only [h7, if_true, if_false]
                  by_cases h8 : grepFormatHit "mpkg" body
                  · simp [h8]
                  · simp [h8]
  refine ⟨hmain, fun h => ?_⟩
  rw [hmain, if_pos h]
  exact ⟨rfl, by decide⟩

/-- Concrete recipe body containing the dmg pattern. -/
def dmgBody : String :=
  "<key>url</key>\n<string>https://example.com/Foo.dmg</string>"

/-- Witness for C8: the dmg pattern hits on the concrete body, the scan
resolves dmg, and dmg is an image format. -/
theorem c8_format_scan_witness :
    grepFormatHit "dmg" dmgBody = true ∧
    parsed_download_format dmgBody = "dmg" ∧
    dfMem (some (parsed_download_format dmgBody)) supported_image_formats = true :=
  ⟨by decide, ((c8_format_scan dmgBody).2 (by decide)).1,
   ((c8_format_scan dmgBody).2 (by decide)).2⟩

/-- Python os.path.basename: the part of the path after the last slash. -/
def pyBasename (p : String) : String :=
  String.mk (p.toList.foldl (fun acc c => if c = '/' then [] else acc ++ [c]) [])

/-- Python slicing with negative four: drop the last four characters. -/
def pyDropRight4 (s : String) : String :=
  String.mk (s.toList.take (s.toList.length - 4))

/-- The last designated requirement captured by the loop at
lines 939 to 942: for each line of the codesign output that starts with
the marker, the text after the marker replaces the previous capture. -/
def last_designated (out : String) : String :=
  (splitLines out.toList).foldl
    (fun acc line =>
      if litAt "designated => ".toList line then String.mk (line.drop 14)
      else acc)
    ""

/-- The external collaborators handle_app_input blocks on: the Sparkle
feed enclosure format (curl, lines 645 to 661), the MacUpdate
description (curl, lines 675 to 710) and the codesign inspection
returning exit code, standard output and standard error (lines 932 to
933). -/
structure Collaborators where
  get_sparkle_download_format : String → Option String
  get_app_description : String → String
  codesign : String → Int × String × String

/-- The fact extraction part of handle_app_input (lines 828 to 945) as a
function of the bundle metadata and the collaborator results.  A missing
or unreadable Info.plist is fatal (line 833); the subject name falls
back from CFBundleName to CFBundleExecutable to the basename of the
input path without its extension; the Sparkle phase aborts when no feed
is found; the remaining facts default to empty when their key is
missing; the code signing requirement is captured only when codesign
exits with status zero. -/
def extract_app_facts (input_path : String)
    (readBundleInfo : Option (List (String × String))) (c : Collaborators) :
    Except String AppFacts :=
  match readBundleInfo with
  | none => Except.error "This doesn\x27t look like a valid app to me."
  | some info =>
    let n0 := match lookupInfo info "CFBundleName" with
      | some v => v
      | none => ""
    let n1 := if n0 = "" then
        (match lookupInfo info "CFBundleExecutable" with
          | some v => v
          | none => n0)
      else n0
    let app_name := if n1 = "" then pyDropRight4 (pyBasename input_path) else n1
    match sparkle_phase info c.get_sparkle_download_format with
    | Except.error e => Except.error e
    | Except.ok feedFmt =>
      let min_sys_vers := match lookupInfo info "LSMinimumSystemVersion" with
        | some v => v
        | none => ""
      let icon_path := match lookupInfo info "CFBundleIconFile" with
        | some v => input_path ++ "/Contents/Resources/" ++ v
        | none => ""
      let bundle_id := match lookupInfo info "CFBundleIdentifier" with
        | some v => v
        | none => ""
      let description := c.get_app_description app_name
      let cs := c.codesign input_path
      let signing := if cs.1 = 0 then (true, last_designated cs.2.1)
        else (false, "")
      Except.ok
        { app_name := app_name
          sparkle_feed := feedFmt.1
          github_repo := ""
          sourceforge_id := ""
          download_format := feedFmt.2
          min_sys_vers := min_sys_vers
          icon_path := icon_path
          bundle_id := bundle_id
          description := description
          code_signed := signing.1
          code_sign_reqs := signing.2 }

/-- C9: fact extraction is deterministic in its inputs.  Two runs of the
application-bundle fact extraction on the same bundle metadata with the
same collaborator results produce the same Facts value. -/
theorem c9_deterministic (input_path : String)
    (readBundleInfo : Option (List (String × String))) (c : Collaborators)
    (f1 f2 : Except String AppFacts)
    (h1 : extract_app_facts input_path readBundleInfo c = f1)
    (h2 : extract_app_facts input_path readBundleInfo c = f2) :
    f1 = f2 :=
  h1 ▸ h2

/-- Concrete Info.plist mapping for an app named Foo with a Sparkle
feed. -/
def fooInfoFeed : List (String × String) :=
  [("CFBundleName", "Foo"), ("SUFeedURL", "https://example.com/appcast.xml")]

/-- Concrete collaborator results: zip enclosure, a fixed description,
and a successful codesign run with one designated requirement line. -/
def demoCollab : Collaborators :=
  { get_sparkle_download_format := fun _ => some "zip"
    get_app_description := fun _ => "A fine app."
    codesign := fun _ => (0, "designated => anchor apple", "") }

/-- The Facts value extracted from the concrete Foo inputs. -/
def fooExtracted : AppFacts :=
  { app_name := "Foo"
    sparkle_feed := "https://example.com/appcast.xml"
    github_repo := ""
    sourceforge_id := ""
    download_format := some "zip"
    min_sys_vers := ""
    icon_path := ""
    bundle_id := ""
    description := "A fine app."
    code_signed := true
    code_sign_reqs := "anchor apple" }

/-- Witness for C9: both determinism hypotheses are discharged at a
concrete run, pinning the extracted Facts value. -/
theorem c9_deterministic_witness :
    extract_app_facts "/Applications/Foo.app" (some fooInfoFeed) demoCollab =
      Except.ok fooExtracted :=
  c9_deterministic "/Applications/Foo.app" (some fooInfoFeed) demoCollab
    (extract_app_facts "/Applications/Foo.app" (some fooInfoFeed) demoCollab)
    (Except.ok fooExtracted) rfl (by rfl)

end RecipeRobot
